import Mathlib

/-!
Verification of the `football` API client (src/football/football.py).

The client is a single class `Football`: each public method validates its
optional parameters, builds a URL through the private helper `_generate_url`,
and issues exactly one HTTP GET with an `X-Auth-Token` header.  We embed the
control flow of each method as a pure Lean function returning an `Outcome`:
either a returned `KeyError` (failed mnemonic lookup), a raised `ValueError`
(failed parameter validation), or the single HTTP GET the method would issue,
with its exact URL and header list.  The JSON response body is opaque
pass-through in the source, so it is not modelled.
-/

namespace FootballApi

/-- A Python value passed as a method parameter: the client only ever sees
integers or strings.  `str()` conversion and truthiness are modelled below. -/
inductive Param
  | int (n : Int)
  | str (s : String)
deriving DecidableEq

/-- Python truthiness of a parameter value: `0` and `""` are falsy. -/
def Param.truthy : Param → Bool
  | .int n => n ≠ 0
  | .str s => s ≠ ""

/-- Python `str()` conversion of a parameter value. -/
def Param.toStr : Param → String
  | .int n => toString n
  | .str s => s

/-- Python truthiness of an optional parameter: `None` is falsy. -/
def optTruthy : Option Param → Bool
  | some p => p.truthy
  | none => false

/-- A competition identifier argument: the methods accept either a numeric id
or a mnemonic string (`isinstance(competition_id, str)` dispatch). -/
inductive CompId
  | num (n : Int)
  | str (s : String)
deriving DecidableEq

/-- The module-level `LEAGUE_CODE` dictionary, in source order. -/
def LEAGUE_CODE : List (String × Int) :=
  [("BSA", 444), ("PL", 445), ("ELC", 446), ("EL1", 447), ("EL2", 448),
   ("DED", 449), ("FL1", 450), ("FL2", 451), ("BL1", 452), ("BL2", 453),
   ("PD", 455), ("SA", 456), ("PPL", 457), ("DFB", 458), ("SB", 459),
   ("CL", 464), ("AAL", 466)]

/-- Dictionary lookup `LEAGUE_CODE[code]`: `some` id when the key is present,
`none` when the subscript would raise `KeyError`. -/
def leagueLookup (code : String) : Option Int :=
  (LEAGUE_CODE.find? (fun p => p.1 == code)).map (fun p => p.2)

/-- The `try LEAGUE_CODE[competition_id] except KeyError` block shared by
`teams`, `table` and `competition_fixtures`: a numeric id passes through,
a mnemonic is resolved, an unknown mnemonic yields the caught key. -/
def resolveId : CompId → Except String Int
  | .num n => .ok n
  | .str s =>
    match leagueLookup s with
    | some n => .ok n
    | none => .error s

/-- Codepoint ranges of the Unicode decimal digits (general category `Nd`,
660 characters): Python's `\d` in a `str` pattern without `re.ASCII` matches
exactly these characters, not only `0`-`9`. -/
def ndDigitRanges : List (Nat × Nat) :=
  [(48, 57), (1632, 1641), (1776, 1785), (1984, 1993),
   (2406, 2415), (2534, 2543), (2662, 2671), (2790, 2799),
   (2918, 2927), (3046, 3055), (3174, 3183), (3302, 3311),
   (3430, 3439), (3558, 3567), (3664, 3673), (3792, 3801),
   (3872, 3881), (4160, 4169), (4240, 4249), (6112, 6121),
   (6160, 6169), (6470, 6479), (6608, 6617), (6784, 6793),
   (6800, 6809), (6992, 7001), (7088, 7097), (7232, 7241),
   (7248, 7257), (42528, 42537), (43216, 43225), (43264, 43273),
   (43472, 43481), (43504, 43513), (43600, 43609), (44016, 44025),
   (65296, 65305), (66720, 66729), (68912, 68921), (69734, 69743),
   (69872, 69881), (69942, 69951), (70096, 70105), (70384, 70393),
   (70736, 70745), (70864, 70873), (71248, 71257), (71360, 71369),
   (71472, 71481), (71904, 71913), (72016, 72025), (72784, 72793),
   (73040, 73049), (73120, 73129), (92768, 92777), (92864, 92873),
   (93008, 93017), (120782, 120831), (123200, 123209), (123632, 123641),
   (125264, 125273), (130032, 130041)]

/-- Unicode-aware digit test: true iff the character is in general category
`Nd`, which is what Python's `\d` matches in the source's str patterns
(e.g. the Arabic-Indic digit `٥`, U+0665, counts as a digit). -/
def isDigitNd (c : Char) : Bool :=
  ndDigitRanges.any (fun r => decide (r.1 ≤ c.toNat) && decide (c.toNat ≤ r.2))

/-- Python `re.compile(r"\d\d\d\d").match(s)` succeeds iff a match is found at
the START of `s` (prefix match, not full match): `s` must have four Unicode
decimal digits (category `Nd`) as its first four characters; any further
characters are ignored. -/
def seasonMatch (s : String) : Bool :=
  match s.toList with
  | a :: b :: c :: d :: _ =>
    isDigitNd a && isDigitNd b && isDigitNd c && isDigitNd d
  | _ => false

/-- Python `re.compile(r"\d+").match(s)` succeeds iff the first character of
`s` is a Unicode decimal digit (category `Nd`, prefix match). -/
def matchdayMatch (s : String) : Bool :=
  match s.toList with
  | c :: _ => isDigitNd c
  | [] => false

/-- Python `re.compile(r"p|n[1-9]{1,2}").match(s)` succeeds iff `s` starts
with `p`, or starts with `n` followed by one character in `1`-`9` (prefix
match with backtracking: the `{1,2}` quantifier succeeds already with one
repetition, and `[1-9]` excludes the digit `0`). -/
def timeFrameMatch (s : String) : Bool :=
  match s.toList with
  | 'p' :: _ => true
  | 'n' :: c :: _ => '1' ≤ c && c ≤ '9'
  | _ => false

/-- Python `venue in ("home", "away")`: tuple membership by equality; a
non-string value never equals either string. -/
def venueMember : Param → Bool
  | .str "home" => true
  | .str "away" => true
  | _ => false

/-- Python `league_code in LEAGUE_CODE.keys()`: dictionary-key membership; a
non-string value is never a key. -/
def leagueKeyMember : Param → Bool
  | .str s => (leagueLookup s).isSome
  | .int _ => false

/-- Hexadecimal digit character (uppercase), as used by `urllib` quoting. -/
def hexDigit (n : Nat) : Char :=
  if n < 10 then Char.ofNat (48 + n) else Char.ofNat (55 + n)

/-- Two-digit uppercase hexadecimal rendering of a byte. -/
def hexByte (b : Nat) : String :=
  String.mk [hexDigit (b / 16), hexDigit (b % 16)]

/-- UTF-8 byte sequence of a character, as Python percent-encodes non-safe
characters byte by byte. -/
def utf8Encode (c : Char) : List Nat :=
  let n := c.toNat
  if n < 128 then [n]
  else if n < 2048 then [192 + n / 64, 128 + n % 64]
  else if n < 65536 then [224 + n / 4096, 128 + (n / 64) % 64, 128 + n % 64]
  else [240 + n / 262144, 128 + (n / 4096) % 64, 128 + (n / 64) % 64,
        128 + n % 64]

/-- Quoting of one character under `urllib.parse.quote_plus`: ASCII letters,
digits and `_.-~` are kept, a space becomes `+`, anything else is
percent-encoded per UTF-8 byte. -/
def quoteCharPlus (c : Char) : String :=
  if c.isAlphanum || c = '_' || c = '.' || c = '-' || c = '~' then
    String.singleton c
  else if c = ' ' then "+"
  else String.join ((utf8Encode c).map (fun b => "%" ++ hexByte b))

/-- Python `urllib.parse.quote_plus` on a string. -/
def quote_plus (s : String) : String :=
  String.join (s.toList.map quoteCharPlus)

/-- Python `urllib.parse.urlencode` over an ordered mapping: quoted
`key=value` pairs joined with `&`. -/
def urlencode (query_params : List (String × String)) : String :=
  String.intercalate "&"
    (query_params.map (fun p => quote_plus p.1 ++ "=" ++ quote_plus p.2))

/-- Python `urllib.parse.urljoin`, restricted to the relative references this
client produces: `rel` has no scheme, no authority, no leading slash and no
dot segments, so the join keeps `base` up to and including its last `/` and
appends `rel`. -/
def urljoin (base rel : String) : String :=
  String.mk ((base.toList.reverse.dropWhile (fun c => c ≠ '/')).reverse) ++ rel

/-- The outcome of one public method call.  `get url headers` means the
method issues exactly one HTTP GET at `url` with the given headers (the JSON
body is returned opaquely); `keyError k` means the `except KeyError` handler
returned the error object for key `k` with no request issued; `valueError m`
means `raise ValueError(m)` fired with no request issued. -/
inductive Outcome
  | keyError (key : String)
  | valueError (msg : String)
  | get (url : String) (headers : List (String × Option String))
deriving DecidableEq

/-- Number of HTTP GET requests an outcome issues: one for `get`, zero for
either error. -/
def Outcome.requestCount : Outcome → Nat
  | .get _ _ => 1
  | _ => 0

/-- The `Football` class: holds the `api_key` given to `__init__`
(`None` when omitted). -/
structure Football where
  api_key : Option String
deriving DecidableEq

/-- The class attribute `API_URL`. -/
def API_URL : String := "http://api.football-data.org/v1/"

/-- The `self.headers` dictionary built in `__init__`. -/
def Football.headers (f : Football) : List (String × Option String) :=
  [("X-Auth-Token", f.api_key)]

/-- The private helper `Football._generate_url`: appends a `/` to the two
collection-root actions, appends the encoded query string when the mapping is
non-empty (`None` and `{}` are both falsy and are modelled as `[]`), and
joins against `API_URL`. -/
def _generate_url (action : String) (query_params : List (String × String)) :
    String :=
  let action :=
    if action = "competitions" ∨ action = "fixtures" then action ++ "/"
    else action
  let action :=
    if query_params.isEmpty then action
    else action ++ "?" ++ urlencode query_params
  urljoin API_URL action

/-- Method `Football.competitions(season=None)`. -/
def Football.competitions (f : Football) (season : Option Param) : Outcome :=
  match season with
  | some p =>
    if p.truthy then
      if seasonMatch p.toStr then
        .get (_generate_url "competitions" [("season", p.toStr)]) f.headers
      else .valueError "season is invalid."
    else .get (_generate_url "competitions" []) f.headers
  | none => .get (_generate_url "competitions" []) f.headers

/-- Method `Football.teams(competition_id)`. -/
def Football.teams (f : Football) (competition_id : CompId) : Outcome :=
  match resolveId competition_id with
  | .error key => .keyError key
  | .ok cid =>
    .get (_generate_url ("competitions/" ++ toString cid ++ "/teams") [])
      f.headers

/-- Method `Football.table(competition_id, matchday=None)`. -/
def Football.table (f : Football) (competition_id : CompId)
    (matchday : Option Param) : Outcome :=
  match resolveId competition_id with
  | .error key => .keyError key
  | .ok cid =>
    if optTruthy matchday then
      match matchday with
      | some p =>
        if matchdayMatch p.toStr then
          .get (_generate_url ("competitions/" ++ toString cid ++
            "/leagueTable") [("matchday", p.toStr)]) f.headers
        else .valueError "matchday is invalid."
      | none => .valueError "matchday is invalid."
    else
      .get (_generate_url ("competitions/" ++ toString cid ++ "/leagueTable")
        []) f.headers

/-- Method `Football.competition_fixtures(competition_id, matchday=None,
time_frame=None)`: query parameters accumulate in insertion order
(`matchday` before `timeFrame`). -/
def Football.competition_fixtures (f : Football) (competition_id : CompId)
    (matchday : Option Param) (time_frame : Option Param) : Outcome :=
  match resolveId competition_id with
  | .error key => .keyError key
  | .ok cid =>
    let qp : List (String × String) := []
    match matchday, optTruthy matchday with
    | some p, true =>
      if matchdayMatch p.toStr then
        let qp := qp ++ [("matchday", p.toStr)]
        match time_frame, optTruthy time_frame with
        | some q, true =>
          if timeFrameMatch q.toStr then
            .get (_generate_url ("competitions/" ++ toString cid ++
              "/fixtures") (qp ++ [("timeFrame", q.toStr)])) f.headers
          else .valueError "time_frame is invalid."
        | _, _ =>
          .get (_generate_url ("competitions/" ++ toString cid ++ "/fixtures")
            qp) f.headers
      else .valueError "matchday is invalid."
    | _, _ =>
      match time_frame, optTruthy time_frame with
      | some q, true =>
        if timeFrameMatch q.toStr then
          .get (_generate_url ("competitions/" ++ toString cid ++ "/fixtures")
            (qp ++ [("timeFrame", q.toStr)])) f.headers
        else .valueError "time_frame is invalid."
      | _, _ =>
        .get (_generate_url ("competitions/" ++ toString cid ++ "/fixtures")
          qp) f.headers

/-- Method `Football.fixtures(time_frame=None, league_code=None)`:
`time_frame` is checked first, then `league_code` membership in
`LEAGUE_CODE.keys()`. -/
def Football.fixtures (f : Football) (time_frame : Option Param)
    (league_code : Option Param) : Outcome :=
  match time_frame, optTruthy time_frame with
  | some q, true =>
    if timeFrameMatch q.toStr then
      match league_code, optTruthy league_code with
      | some l, true =>
        if leagueKeyMember l then
          .get (_generate_url "fixtures"
            [("timeFrame", q.toStr), ("league", l.toStr)]) f.headers
        else .valueError "league_code is invalid."
      | _, _ =>
        .get (_generate_url "fixtures" [("timeFrame", q.toStr)]) f.headers
    else .valueError "time_frame is invalid."
  | _, _ =>
    match league_code, optTruthy league_code with
    | some l, true =>
      if leagueKeyMember l then
        .get (_generate_url "fixtures" [("league", l.toStr)]) f.headers
      else .valueError "league_code is invalid."
    | _, _ =>
      .get (_generate_url "fixtures" []) f.headers

/-- Method `Football.fixture(fixture_id)`. -/
def Football.fixture (f : Football) (fixture_id : Param) : Outcome :=
  .get (_generate_url ("fixtures/" ++ fixture_id.toStr) []) f.headers

/-- Method `Football.team_fixtures(team_id, season=None, time_frame=None,
venue=None)`: `season`, then `time_frame`, then `venue` are checked; query
parameters accumulate in that order. -/
def Football.team_fixtures (f : Football) (team_id : Param)
    (season : Option Param) (time_frame : Option Param)
    (venue : Option Param) : Outcome :=
  let seasonStep : Except String (List (String × String)) :=
    match season, optTruthy season with
    | some p, true =>
      if seasonMatch p.toStr then .ok [("season", p.toStr)]
      else .error "season is invalid."
    | _, _ => .ok []
  match seasonStep with
  | .error m => .valueError m
  | .ok qp1 =>
    let tfStep : Except String (List (String × String)) :=
      match time_frame, optTruthy time_frame with
      | some q, true =>
        if timeFrameMatch q.toStr then .ok (qp1 ++ [("timeFrame", q.toStr)])
        else .error "time_frame is invalid."
      | _, _ => .ok qp1
    match tfStep with
    | .error m => .valueError m
    | .ok qp2 =>
      let venueStep : Except String (List (String × String)) :=
        match venue, optTruthy venue with
        | some v, true =>
          if venueMember v then .ok (qp2 ++ [("venue", v.toStr)])
          else .error "venue is invalid."
        | _, _ => .ok qp2
      match venueStep with
      | .error m => .valueError m
      | .ok qp3 =>
        .get (_generate_url ("teams/" ++ team_id.toStr ++ "/fixtures") qp3)
          f.headers

/-- Method `Football.team(team_id)`. -/
def Football.team (f : Football) (team_id : Param) : Outcome :=
  .get (_generate_url ("teams/" ++ team_id.toStr) []) f.headers

/-- Method `Football.players(team_id)`. -/
def Football.players (f : Football) (team_id : Param) : Outcome :=
  .get (_generate_url ("teams/" ++ team_id.toStr ++ "/players") []) f.headers

/-- C1: `table("PL", matchday=5)` resolves the mnemonic to 445, builds
exactly the URL
`http://api.football-data.org/v1/competitions/445/leagueTable?matchday=5`,
and issues exactly one HTTP GET whose `X-Auth-Token` header carries the
configured API key. -/
theorem C1_table_PL_matchday5 (k : Option String) :
    Football.table ⟨k⟩ (.str "PL") (some (.int 5)) =
      Outcome.get
        "http://api.football-data.org/v1/competitions/445/leagueTable?matchday=5"
        [("X-Auth-Token", k)] ∧
    (Football.table ⟨k⟩ (.str "PL") (some (.int 5))).requestCount = 1 :=
  ⟨rfl, rfl⟩

/-- C2 counterexample: the season `"20199"` does not consist of exactly four
decimal digits, yet `competitions` accepts it and issues an HTTP GET carrying
`season=20199` (the source pattern `\d\d\d\d` is prefix-matched), so the
claim that every such value fails validation before any request is false. -/
theorem C2_counterexample :
    Football.competitions ⟨none⟩ (some (.str "20199")) =
      Outcome.get "http://api.football-data.org/v1/competitions/?season=20199"
        [("X-Auth-Token", none)] ∧
    (Football.competitions ⟨none⟩ (some (.str "20199"))).requestCount = 1 :=
  ⟨rfl, rfl⟩

/-- C2 amended: for every truthy season value whose string form does not have
four Unicode decimal digits (category `Nd`) as its first four characters,
`competitions` and `team_fixtures` raise `ValueError("season is invalid.")`
and issue no network request; `"99"` and `"20x9"` are such values, while
`"20199"` has a four-digit prefix and passes, and so does the all-Nd
Arabic-Indic string `"٢٠١٩"`, since Python's `\d` is not ASCII-only. -/
theorem C2_season_prefix_validated (f : Football) (tid : Param)
    (tf v : Option Param) (p : Param) (h1 : p.truthy = true)
    (h2 : seasonMatch p.toStr = false) :
    Football.competitions f (some p) = .valueError "season is invalid." ∧
    Football.team_fixtures f tid (some p) tf v =
      .valueError "season is invalid." ∧
    (Football.competitions f (some p)).requestCount = 0 ∧
    (Football.team_fixtures f tid (some p) tf v).requestCount = 0 ∧
    seasonMatch "99" = false ∧ seasonMatch "20x9" = false ∧
    seasonMatch "20199" = true ∧ seasonMatch "٢٠١٩" = true := by
  refine ⟨?_, ?_, ?_, ?_, by decide, by decide, by decide, by decide⟩ <;>
    simp [Football.competitions, Football.team_fixtures, Outcome.requestCount,
      optTruthy, h1, h2]

/-- C2 witness: the amended statement at the concrete season `"99"`. -/
theorem C2_season_prefix_validated_witness :
    Football.competitions ⟨none⟩ (some (.str "99")) =
      .valueError "season is invalid." ∧
    Football.team_fixtures ⟨none⟩ (.int 66) (some (.str "99")) none none =
      .valueError "season is invalid." ∧
    (Football.competitions ⟨none⟩ (some (.str "99"))).requestCount = 0 ∧
    (Football.team_fixtures ⟨none⟩ (.int 66) (some (.str "99")) none
      none).requestCount = 0 ∧
    seasonMatch "99" = false ∧ seasonMatch "20x9" = false ∧
    seasonMatch "20199" = true ∧ seasonMatch "٢٠١٩" = true :=
  C2_season_prefix_validated ⟨none⟩ (.int 66) none none (.str "99")
    (by decide) (by decide)

/-- C3 counterexample: `"n123"` is not of the shape `p` or `n` plus one or
two digits, yet `fixtures` accepts it and issues an HTTP GET carrying
`timeFrame=n123` (the source pattern `p|n[1-9]{1,2}` is prefix-matched), so
the claim that such values raise a validation error is false. -/
theorem C3_counterexample :
    Football.fixtures ⟨none⟩ (some (.str "n123")) none =
      Outcome.get "http://api.football-data.org/v1/fixtures/?timeFrame=n123"
        [("X-Auth-Token", none)] ∧
    (Football.fixtures ⟨none⟩ (some (.str "n123")) none).requestCount = 1 :=
  ⟨rfl, rfl⟩

/-- C3 amended: a truthy time-frame value passes validation in
`competition_fixtures`, `fixtures` and `team_fixtures` iff its string form
starts with `p`, or with `n` followed by a digit `1`-`9`; when it passes the
value is sent as the `timeFrame` query parameter, otherwise all three
methods raise `ValueError("time_frame is invalid.")`.  So `"p"`, `"n7"`,
`"n45"` and also `"n123"` pass, while `"x5"` and `"n0"` fail. -/
theorem C3_timeframe_prefix_validated (f : Football) (n : Int) (tid : Param)
    (q : Param) (h1 : q.truthy = true) :
    (timeFrameMatch q.toStr = true →
      Football.competition_fixtures f (.num n) none (some q) =
        .get (_generate_url ("competitions/" ++ toString n ++ "/fixtures")
          [("timeFrame", q.toStr)]) f.headers ∧
      Football.fixtures f (some q) none =
        .get (_generate_url "fixtures" [("timeFrame", q.toStr)]) f.headers ∧
      Football.team_fixtures f tid none (some q) none =
        .get (_generate_url ("teams/" ++ tid.toStr ++ "/fixtures")
          [("timeFrame", q.toStr)]) f.headers) ∧
    (timeFrameMatch q.toStr = false →
      Football.competition_fixtures f (.num n) none (some q) =
        .valueError "time_frame is invalid." ∧
      Football.fixtures f (some q) none =
        .valueError "time_frame is invalid." ∧
      Football.team_fixtures f tid none (some q) none =
        .valueError "time_frame is invalid.") ∧
    timeFrameMatch "p" = true ∧ timeFrameMatch "n7" = true ∧
    timeFrameMatch "n45" = true ∧ timeFrameMatch "n123" = true ∧
    timeFrameMatch "x5" = false ∧ timeFrameMatch "n0" = false := by
  refine ⟨fun h2 => ⟨?_, ?_, ?_⟩, fun h2 => ⟨?_, ?_, ?_⟩,
    by decide, by decide, by decide, by decide, by decide, by decide⟩ <;>
    simp [Football.competition_fixtures, Football.fixtures,
      Football.team_fixtures, resolveId, optTruthy, h1, h2]

/-- C3 witness: the amended statement applied at the concrete time frame
`"n45"`, which passes validation and reaches the query string. -/
theorem C3_timeframe_prefix_validated_witness :
    Football.fixtures ⟨none⟩ (some (.str "n45")) none =
      Outcome.get "http://api.football-data.org/v1/fixtures/?timeFrame=n45"
        [("X-Auth-Token", none)] :=
  ((C3_timeframe_prefix_validated ⟨none⟩ 445 (.int 66) (.str "n45")
    (by decide)).1 (by decide)).2.1

/-- C4: the league-code table maps each documented mnemonic to exactly the
documented numeric id and holds those 17 entries and no others.  In this
embedding `LEAGUE_CODE` is a top-level constant and every method is a pure
function of its arguments, so no operation can mutate the table. -/
theorem C4_league_code_table :
    leagueLookup "BSA" = some 444 ∧ leagueLookup "PL" = some 445 ∧
    leagueLookup "ELC" = some 446 ∧ leagueLookup "EL1" = some 447 ∧
    leagueLookup "EL2" = some 448 ∧ leagueLookup "DED" = some 449 ∧
    leagueLookup "FL1" = some 450 ∧ leagueLookup "FL2" = some 451 ∧
    leagueLookup "BL1" = some 452 ∧ leagueLookup "BL2" = some 453 ∧
    leagueLookup "PD" = some 455 ∧ leagueLookup "SA" = some 456 ∧
    leagueLookup "PPL" = some 457 ∧ leagueLookup "DFB" = some 458 ∧
    leagueLookup "SB" = some 459 ∧ leagueLookup "CL" = some 464 ∧
    leagueLookup "AAL" = some 466 ∧ LEAGUE_CODE.length = 17 := by
  decide

/-- C5: a string competition identifier that is not a key of the league-code
table makes `teams`, `table` and `competition_fixtures` produce the caught
`KeyError` for that key as their outcome, and no HTTP GET is issued. -/
theorem C5_unknown_mnemonic_no_request (f : Football) (s : String)
    (md tf : Option Param) (h : leagueLookup s = none) :
    Football.teams f (.str s) = .keyError s ∧
    Football.table f (.str s) md = .keyError s ∧
    Football.competition_fixtures f (.str s) md tf = .keyError s ∧
    (Football.teams f (.str s)).requestCount = 0 ∧
    (Football.table f (.str s) md).requestCount = 0 ∧
    (Football.competition_fixtures f (.str s) md tf).requestCount = 0 := by
  refine ⟨?_, ?_, ?_, ?_, ?_, ?_⟩ <;>
    simp [Football.teams, Football.table, Football.competition_fixtures,
      Outcome.requestCount, resolveId, h]

/-- C5 witness: the statement at the concrete unknown mnemonic `"XYZ"`. -/
theorem C5_unknown_mnemonic_no_request_witness :
    Football.teams ⟨none⟩ (.str "XYZ") = .keyError "XYZ" ∧
    Football.table ⟨none⟩ (.str "XYZ") none = .keyError "XYZ" ∧
    Football.competition_fixtures ⟨none⟩ (.str "XYZ") none none =
      .keyError "XYZ" ∧
    (Football.teams ⟨none⟩ (.str "XYZ")).requestCount = 0 ∧
    (Football.table ⟨none⟩ (.str "XYZ") none).requestCount = 0 ∧
    (Football.competition_fixtures ⟨none⟩ (.str "XYZ") none
      none).requestCount = 0 :=
  C5_unknown_mnemonic_no_request ⟨none⟩ "XYZ" none none (by decide)

/-- C6: `_generate_url` is a pure function, so two applications at the same
action and query mapping give the same URL; and for the collection-root
actions `competitions` and `fixtures` the URL always carries a trailing
slash after the action, placed before the query string when one is
appended. -/
theorem C6_generate_url_pure_trailing_slash :
    (∀ action qp, _generate_url action qp = _generate_url action qp) ∧
    (∀ qp, _generate_url "competitions" qp =
      "http://api.football-data.org/v1/competitions/" ++
        (if qp.isEmpty then "" else "?" ++ urlencode qp)) ∧
    (∀ qp, _generate_url "fixtures" qp =
      "http://api.football-data.org/v1/fixtures/" ++
        (if qp.isEmpty then "" else "?" ++ urlencode qp)) := by
  refine ⟨fun _ _ => rfl, fun qp => ?_, fun qp => ?_⟩
  · cases qp with
    | nil => rfl
    | cons a t =>
      show urljoin API_URL ("competitions" ++ "/" ++ "?" ++
        urlencode (a :: t)) = _
      rw [urljoin]
      simp only [List.isEmpty_cons, if_neg]
      rw [← String.append_assoc]
      rfl
  · cases qp with
    | nil => rfl
    | cons a t =>
      show urljoin API_URL ("fixtures" ++ "/" ++ "?" ++
        urlencode (a :: t)) = _
      rw [urljoin]
      simp only [List.isEmpty_cons, if_neg]
      rw [← String.append_assoc]
      rfl

/-- C7 counterexample: the matchday `"1a"` is not a string of decimal
digits, yet `table` accepts it and issues an HTTP GET carrying
`matchday=1a` (the source pattern `\d+` is prefix-matched), so the claim
that every such value fails validation is false. -/
theorem C7_counterexample :
    Football.table ⟨none⟩ (.num 445) (some (.str "1a")) =
      Outcome.get
        "http://api.football-data.org/v1/competitions/445/leagueTable?matchday=1a"
        [("X-Auth-Token", none)] ∧
    (Football.table ⟨none⟩ (.num 445) (some (.str "1a"))).requestCount = 1 :=
  ⟨rfl, rfl⟩

/-- C7 amended: for every truthy matchday value whose string form does not
start with a Unicode decimal digit (category `Nd`), `table` and
`competition_fixtures` raise `ValueError("matchday is invalid.")` and
perform no network call; a value whose first character is such a digit
passes validation even when non-digits follow, and Python's `\d` is not
ASCII-only, so the Arabic-Indic digit `"٥"` also passes. -/
theorem C7_matchday_prefix_validated (f : Football) (n : Int)
    (tf : Option Param) (p : Param) (h1 : p.truthy = true)
    (h2 : matchdayMatch p.toStr = false) :
    Football.table f (.num n) (some p) = .valueError "matchday is invalid." ∧
    Football.competition_fixtures f (.num n) (some p) tf =
      .valueError "matchday is invalid." ∧
    (Football.table f (.num n) (some p)).requestCount = 0 ∧
    (Football.competition_fixtures f (.num n) (some p) tf).requestCount =
      0 ∧
    matchdayMatch "1a" = true ∧ matchdayMatch "٥" = true ∧
    matchdayMatch "x" = false := by
  refine ⟨?_, ?_, ?_, ?_, by decide, by decide, by decide⟩ <;>
    simp [Football.table, Football.competition_fixtures,
      Outcome.requestCount, resolveId, optTruthy, h1, h2]

/-- C7 witness: the amended statement at the concrete matchday `"x"`. -/
theorem C7_matchday_prefix_validated_witness :
    Football.table ⟨none⟩ (.num 445) (some (.str "x")) =
      .valueError "matchday is invalid." ∧
    Football.competition_fixtures ⟨none⟩ (.num 445) (some (.str "x")) none =
      .valueError "matchday is invalid." ∧
    (Football.table ⟨none⟩ (.num 445) (some (.str "x"))).requestCount = 0 ∧
    (Football.competition_fixtures ⟨none⟩ (.num 445) (some (.str "x"))
      none).requestCount = 0 ∧
    matchdayMatch "1a" = true ∧ matchdayMatch "٥" = true ∧
    matchdayMatch "x" = false :=
  C7_matchday_prefix_validated ⟨none⟩ 445 none (.str "x") (by decide)
    (by decide)

/-- C8 counterexample: the empty string is a venue value other than `"home"`
or `"away"`, yet `team_fixtures` does not fail validation on it: the empty
string is falsy, the guard is skipped, and an HTTP GET without a `venue`
parameter is issued, so the claim that every such value fails is false. -/
theorem C8_counterexample :
    Football.team_fixtures ⟨none⟩ (.int 66) none none (some (.str "")) =
      Outcome.get "http://api.football-data.org/v1/teams/66/fixtures"
        [("X-Auth-Token", none)] ∧
    (Football.team_fixtures ⟨none⟩ (.int 66) none none
      (some (.str ""))).requestCount = 1 :=
  ⟨rfl, rfl⟩

/-- C8 amended: for every truthy venue value, `team_fixtures` raises
`ValueError("venue is invalid.")` with no network call unless the value is
exactly the string `"home"` or `"away"`, in which case it is passed through
as the `venue` query parameter; the falsy values `""` and `0` skip the
guard entirely. -/
theorem C8_venue_validated (f : Football) (tid v : Param)
    (h1 : v.truthy = true) :
    (venueMember v = false →
      Football.team_fixtures f tid none none (some v) =
        .valueError "venue is invalid." ∧
      (Football.team_fixtures f tid none none (some v)).requestCount = 0) ∧
    (venueMember v = true →
      Football.team_fixtures f tid none none (some v) =
        .get (_generate_url ("teams/" ++ tid.toStr ++ "/fixtures")
          [("venue", v.toStr)]) f.headers) ∧
    venueMember (.str "home") = true ∧ venueMember (.str "away") = true := by
  refine ⟨fun h2 => ⟨?_, ?_⟩, fun h2 => ?_, by decide, by decide⟩ <;>
    simp [Football.team_fixtures, Outcome.requestCount, optTruthy, h1, h2]

/-- C8 witness: the amended statement at the concrete venue `"home"`, which
reaches the query string. -/
theorem C8_venue_validated_witness :
    Football.team_fixtures ⟨none⟩ (.int 66) none none (some (.str "home")) =
      Outcome.get "http://api.football-data.org/v1/teams/66/fixtures?venue=home"
        [("X-Auth-Token", none)] :=
  (C8_venue_validated ⟨none⟩ (.int 66) (.str "home") (by decide)).2.1
    (by decide)

/-- C9 counterexample: the empty string is not a key of the league-code
table, yet `fixtures` does not raise on it: the empty string is falsy, the
membership guard is skipped, and an HTTP GET without a `league` parameter
is issued, so the claim that every non-key value raises is false. -/
theorem C9_counterexample :
    Football.fixtures ⟨none⟩ none (some (.str "")) =
      Outcome.get "http://api.football-data.org/v1/fixtures/"
        [("X-Auth-Token", none)] ∧
    (Football.fixtures ⟨none⟩ none (some (.str ""))).requestCount = 1 :=
  ⟨rfl, rfl⟩

/-- C9 amended: for every truthy league-code value, `fixtures` raises
`ValueError("league_code is invalid.")` with no network call unless the
value is a key of the league-code table, in which case it is sent as the
`league` query parameter; the falsy value `""` skips the guard entirely. -/
theorem C9_league_code_validated (f : Football) (l : Param)
    (h1 : l.truthy = true) :
    (leagueKeyMember l = false →
      Football.fixtures f none (some l) =
        .valueError "league_code is invalid." ∧
      (Football.fixtures f none (some l)).requestCount = 0) ∧
    (leagueKeyMember l = true →
      Football.fixtures f none (some l) =
        .get (_generate_url "fixtures" [("league", l.toStr)]) f.headers) := by
  refine ⟨fun h2 => ⟨?_, ?_⟩, fun h2 => ?_⟩ <;>
    simp [Football.fixtures, Outcome.requestCount, optTruthy, h1, h2]

/-- C9 witness: the amended statement at the concrete league code `"PL"`,
which passes validation and is sent as the `league` query parameter. -/
theorem C9_league_code_validated_witness :
    Football.fixtures ⟨none⟩ none (some (.str "PL")) =
      Outcome.get "http://api.football-data.org/v1/fixtures/?league=PL"
        [("X-Auth-Token", none)] :=
  (C9_league_code_validated ⟨none⟩ (.str "PL") (by decide)).2 (by decide)

/-- C10: every falsy optional parameter (the integer `0`, the empty string;
`None` is the `none` argument itself) is skipped by the `if param:` guard:
no validation error is raised for it, it is omitted from the query string,
and the call behaves exactly as if the parameter were absent; in particular
`table(id, matchday=0)` and `team_fixtures(id, venue="")` issue a request
with no such query parameter. -/
theorem C10_falsy_params_skipped (f : Football) (cid : CompId) (tid p : Param)
    (h : p.truthy = false) :
    Football.competitions f (some p) = Football.competitions f none ∧
    Football.table f cid (some p) = Football.table f cid none ∧
    Football.competition_fixtures f cid (some p) (some p) =
      Football.competition_fixtures f cid none none ∧
    Football.fixtures f (some p) (some p) = Football.fixtures f none none ∧
    Football.team_fixtures f tid (some p) (some p) (some p) =
      Football.team_fixtures f tid none none none ∧
    Football.table f (.num 445) (some (.int 0)) =
      .get "http://api.football-data.org/v1/competitions/445/leagueTable"
        f.headers ∧
    Football.team_fixtures f (.int 66) none none (some (.str "")) =
      .get "http://api.football-data.org/v1/teams/66/fixtures" f.headers := by
  refine ⟨?_, ?_, ?_, ?_, ?_, rfl, rfl⟩ <;>
    simp [Football.competitions, Football.table, Football.competition_fixtures,
      Football.fixtures, Football.team_fixtures, optTruthy, h]

/-- C10 witness: the statement at the concrete falsy parameter `0`. -/
theorem C10_falsy_params_skipped_witness :
    Football.competitions ⟨none⟩ (some (.int 0)) =
      Football.competitions ⟨none⟩ none ∧
    Football.table ⟨none⟩ (.num 445) (some (.int 0)) =
      Football.table ⟨none⟩ (.num 445) none ∧
    Football.competition_fixtures ⟨none⟩ (.num 445) (some (.int 0))
      (some (.int 0)) =
      Football.competition_fixtures ⟨none⟩ (.num 445) none none ∧
    Football.fixtures ⟨none⟩ (some (.int 0)) (some (.int 0)) =
      Football.fixtures ⟨none⟩ none none ∧
    Football.team_fixtures ⟨none⟩ (.int 66) (some (.int 0)) (some (.int 0))
      (some (.int 0)) =
      Football.team_fixtures ⟨none⟩ (.int 66) none none none ∧
    Football.table ⟨none⟩ (.num 445) (some (.int 0)) =
      .get "http://api.football-data.org/v1/competitions/445/leagueTable"
        (Football.headers ⟨none⟩) ∧
    Football.team_fixtures ⟨none⟩ (.int 66) none none (some (.str "")) =
      .get "http://api.football-data.org/v1/teams/66/fixtures"
        (Football.headers ⟨none⟩) :=
  C10_falsy_params_skipped ⟨none⟩ (.num 445) (.int 66) (.int 0) (by decide)

end FootballApi
